import Mathlib

/-!
Shallow embedding of the MediCare medicine-reminder application's
derivation logic (dose lifecycle, stock classification, voice-intent
responder, IoT telemetry fallback, hardware activity log), translated
from `src/services/voiceService.ts` (VoiceService / InventoryService),
`src/services/oneMgApiService.ts` (useMedicineData hook) and
`src/services/blynkService.ts` (BlynkService).

Modelling conventions:
* JavaScript numbers holding quantities, thresholds and frequencies are
  modelled as `Int` (the spec declares them integers).
* `Date` values are modelled as `Int` epoch milliseconds; `Date.prototype.toDateString`
  equality (same-calendar-day comparison) is abstracted as equality of
  `dayOf t = t.fdiv 86400000` (day bucketing), which preserves the only
  property the code uses: two timestamps compare equal iff they fall in
  the same day bucket.
* `Math.floor(a / b)` on integers is `Int.fdiv` (floor division).
* `Math.max(0, x)` is `max 0 x`.
-/

/-- Status enum of a dose schedule entry, the five string literals used by
the code: 'pending' | 'taken' | 'missed' | 'snoozed' | 'taken_late'. -/
inductive DoseStatus where
  | pending
  | taken
  | missed
  | snoozed
  | taken_late
deriving DecidableEq, Repr

/-- Language codes 'en' | 'hi' | 'kn' used by VoiceService. -/
inductive Lang where
  | en
  | hi
  | kn
deriving DecidableEq, Repr

/-- Modelled from the spec: the `Medicine` interface of `src/types` (the
types file itself is not in the source snapshot; fields are reconstructed
from spec section 3 and from the sample data and field accesses in
`useMedicineData`, `InventoryService` and `VoiceService`). -/
structure Medicine where
  id : String
  name : String
  dosage : String
  frequency : Int
  totalQuantity : Int
  remainingQuantity : Int
  criticalThreshold : Int
  prescribedBy : String
  startDate : Int
  endDate : Option Int := none
  instructions : String
  sideEffects : Option (List String) := none
  imageUrl : Option String := none
deriving DecidableEq, Repr

/-- Modelled from the spec: the `DoseSchedule` interface of `src/types`
(reconstructed from spec section 3 and from the sample data and the
dose-lifecycle updates in `useMedicineData`). -/
structure DoseSchedule where
  id : String
  medicineId : String
  scheduledTime : Int
  taken : Bool
  takenAt : Option Int := none
  skipped : Bool
  status : DoseStatus
  snoozeUntil : Option Int := none
  notes : Option String := none
deriving DecidableEq, Repr

/-- Modelled from the spec: the `RefillOrder` interface of `src/types`
(reconstructed from spec section 3 and the record built by
`InventoryService.autoRefillIfNeeded`). -/
structure RefillOrder where
  id : String
  medicineId : String
  quantity : Int
  orderDate : Int
  estimatedDelivery : Int
  status : String
  orderId1MG : Option String := none
deriving DecidableEq, Repr

/-- Milliseconds per day, used for the day-bucket abstraction of
`Date.prototype.toDateString` equality. -/
def msPerDay : Int := 86400000

/-- Day bucket of an epoch-millisecond timestamp (abstraction of
`toDateString`: two timestamps have equal `toDateString` iff they lie in
the same day bucket). -/
def dayOf (t : Int) : Int := Int.fdiv t msPerDay

/-- Stock tier returned by `InventoryService.checkStockLevel`:
'critical' | 'low' | 'adequate'. -/
inductive StockLevel where
  | critical
  | low
  | adequate
deriving DecidableEq, Repr

/-- InventoryService.checkStockLevel (voiceService.ts lines 302-309):
critical when remaining <= threshold, low when remaining <= threshold*2,
else adequate. -/
def checkStockLevel (medicine : Medicine) : StockLevel :=
  if medicine.remainingQuantity ≤ medicine.criticalThreshold then
    StockLevel.critical
  else if medicine.remainingQuantity ≤ medicine.criticalThreshold * 2 then
    StockLevel.low
  else
    StockLevel.adequate

/-- InventoryService.calculateDaysRemaining (voiceService.ts lines 311-314):
returns 0 when frequency is 0, otherwise Math.floor(remaining / frequency). -/
def calculateDaysRemaining (medicine : Medicine) : Int :=
  if medicine.frequency = 0 then 0
  else Int.fdiv medicine.remainingQuantity medicine.frequency

/-- InventoryService.updateStock (voiceService.ts lines 357-367): maps over
the medicine list; the medicine whose id matches gets
remainingQuantity = Math.max(0, remainingQuantity - 1) when taken, all
others are returned unchanged. -/
def updateStock (medicineId : String) (medicines : List Medicine) (taken : Bool) :
    List Medicine :=
  medicines.map fun medicine =>
    if medicine.id == medicineId && taken then
      { medicine with remainingQuantity := max 0 (medicine.remainingQuantity - 1) }
    else
      medicine

/-- Sample medicine record mirroring the first entry of `sampleMedicines`
in `useMedicineData` (Metformin 500mg), used to instantiate theorems at
concrete inputs. -/
def sampleMedicine : Medicine :=
  { id := "1"
    name := "Metformin 500mg"
    dosage := "500mg"
    frequency := 2
    totalQuantity := 60
    remainingQuantity := 8
    criticalThreshold := 10
    prescribedBy := "Dr. Sharma"
    startDate := 1704067200000
    instructions := "Take with meals"
    sideEffects := some ["Nausea", "Diarrhea"] }

/-- Aggregate in-memory state held by the `useMedicineData` hook
(oneMgApiService.ts, lines 206-211): the medicine list, the dose-schedule
list and the refill-order list. -/
structure MedState where
  medicines : List Medicine
  schedules : List DoseSchedule
  refillOrders : List RefillOrder
deriving DecidableEq, Repr

/-- useMedicineData.markDoseTaken (oneMgApiService.ts lines 325-349): looks
up the schedule by id in the current schedule list; if absent, returns
early leaving the state unchanged; otherwise marks every schedule with that
id taken (taken flag, takenAt timestamp, status 'taken'), decrements the
associated medicine's stock through InventoryService.updateStock, and, when
the associated medicine exists, appends the order produced by the
asynchronous autoRefillIfNeeded call. That call's outcome depends on
network and randomness and is abstracted here as the `refill` parameter
(`none` models the null result). -/
def markDoseTaken (now : Int) (refill : Option RefillOrder) (scheduleId : String)
    (st : MedState) : MedState :=
  match st.schedules.find? (fun s => s.id == scheduleId) with
  | none => st
  | some schedule =>
    { st with
      schedules := st.schedules.map fun s =>
        if s.id == scheduleId then
          { s with taken := true, takenAt := some now, status := DoseStatus.taken }
        else s
      medicines := updateStock schedule.medicineId st.medicines true
      refillOrders :=
        if (st.medicines.find? (fun m => m.id == schedule.medicineId)).isSome then
          st.refillOrders ++ refill.toList
        else st.refillOrders }

/-- useMedicineData.skipDose (oneMgApiService.ts lines 351-357): marks every
schedule with the given id skipped with status 'missed' and the optional
reason stored in notes; touches neither medicines nor refill orders. -/
def skipDose (scheduleId : String) (reason : Option String) (st : MedState) : MedState :=
  { st with
    schedules := st.schedules.map fun s =>
      if s.id == scheduleId then
        { s with skipped := true, status := DoseStatus.missed, notes := reason }
      else s }

/-- useMedicineData.snoozeDose (oneMgApiService.ts lines 359-368): computes
snoozeUntil = now + 30 minutes and sets status 'snoozed' and that timestamp
on every schedule with the given id; touches neither medicines nor refill
orders. -/
def snoozeDose (now : Int) (scheduleId : String) (st : MedState) : MedState :=
  let snoozeTime : Int := now + 30 * 60000
  { st with
    schedules := st.schedules.map fun s =>
      if s.id == scheduleId then
        { s with status := DoseStatus.snoozed, snoozeUntil := some snoozeTime }
      else s }

/-- useMedicineData.markTakenLate (oneMgApiService.ts lines 370-384): marks
every schedule with the given id taken with status 'taken_late', then looks
the schedule up in the previous schedule list and, when found, decrements
the associated medicine's stock; no auto-refill and no refill-order change. -/
def markTakenLate (now : Int) (scheduleId : String) (st : MedState) : MedState :=
  let schedules := st.schedules.map fun s =>
    if s.id == scheduleId then
      { s with taken := true, takenAt := some now, status := DoseStatus.taken_late }
    else s
  match st.schedules.find? (fun s => s.id == scheduleId) with
  | none => { st with schedules := schedules }
  | some schedule =>
    { st with
      schedules := schedules
      medicines := updateStock schedule.medicineId st.medicines true }

/-- Dose-lifecycle user actions exposed by the `useMedicineData` hook. -/
inductive DoseAction where
  | markTaken (now : Int) (refill : Option RefillOrder) (scheduleId : String)
  | markLate (now : Int) (scheduleId : String)
  | skip (scheduleId : String) (reason : Option String)
  | snooze (now : Int) (scheduleId : String)
deriving DecidableEq, Repr

/-- Dispatch of one dose-lifecycle action on the hook state. -/
def applyAction (act : DoseAction) (st : MedState) : MedState :=
  match act with
  | DoseAction.markTaken now refill id => markDoseTaken now refill id st
  | DoseAction.markLate now id => markTakenLate now id st
  | DoseAction.skip id reason => skipDose id reason st
  | DoseAction.snooze now id => snoozeDose now id st

/-- Medicine id whose stock a dose-lifecycle action decrements: for the two
taken-marking actions it is the medicineId of the schedule found by id (if
any); skip and snooze never touch stock. -/
def targetMedicineId (act : DoseAction) (st : MedState) : Option String :=
  match act with
  | DoseAction.markTaken _ _ id =>
      (st.schedules.find? (fun s => s.id == id)).map (fun s => s.medicineId)
  | DoseAction.markLate _ id =>
      (st.schedules.find? (fun s => s.id == id)).map (fun s => s.medicineId)
  | DoseAction.skip _ _ => none
  | DoseAction.snooze _ _ => none

/-- Consistency of the redundant boolean mirrors with the authoritative
status enum (spec section 3): taken is true exactly for status 'taken' or
'taken_late', and skipped is true exactly for status 'missed'. -/
def flagsConsistent (s : DoseSchedule) : Prop :=
  (s.taken = true ↔
    (s.status = DoseStatus.taken ∨ s.status = DoseStatus.taken_late)) ∧
  (s.skipped = true ↔ s.status = DoseStatus.missed)

instance flagsConsistentDecidable (s : DoseSchedule) : Decidable (flagsConsistent s) := by
  unfold flagsConsistent
  infer_instance

/-- Sample pending schedule mirroring entry '2' of `sampleSchedules` in
`useMedicineData` (evening Metformin dose). -/
def samplePendingSchedule : DoseSchedule :=
  { id := "2", medicineId := "1", scheduledTime := 72000000,
    taken := false, skipped := false, status := DoseStatus.pending }

/-- Sample schedule list mirroring `sampleSchedules` of `useMedicineData`
(times placed inside day bucket 0). -/
def sampleSchedules : List DoseSchedule :=
  [ { id := "1", medicineId := "1", scheduledTime := 28800000,
      taken := true, takenAt := some 29700000, skipped := false,
      status := DoseStatus.taken },
    samplePendingSchedule,
    { id := "3", medicineId := "2", scheduledTime := 32400000,
      taken := false, skipped := false, status := DoseStatus.pending },
    { id := "4", medicineId := "3", scheduledTime := 36000000,
      taken := false, skipped := false, status := DoseStatus.pending } ]

/-- Sample medicine list mirroring `sampleMedicines` of `useMedicineData`. -/
def sampleMedicines : List Medicine :=
  [ sampleMedicine,
    { id := "2", name := "Lisinopril 10mg", dosage := "10mg", frequency := 1,
      totalQuantity := 30, remainingQuantity := 4, criticalThreshold := 5,
      prescribedBy := "Dr. Patel", startDate := 1704067200000,
      instructions := "Take in the morning" },
    { id := "3", name := "Vitamin D3 1000IU", dosage := "1000IU", frequency := 1,
      totalQuantity := 100, remainingQuantity := 15, criticalThreshold := 15,
      prescribedBy := "Dr. Reddy", startDate := 1704067200000,
      instructions := "Take with fatty meal" } ]

/-- Sample hook state assembled from the sample data. -/
def sampleState : MedState :=
  { medicines := sampleMedicines, schedules := sampleSchedules, refillOrders := [] }

/-- State whose only schedule is already taken, with flags consistent with
its status; used to exhibit transitions from a non-pending status. -/
def takenOnlyState : MedState :=
  { medicines := sampleMedicines
    schedules := [ { id := "1", medicineId := "1", scheduledTime := 28800000,
                     taken := true, takenAt := some 29700000, skipped := false,
                     status := DoseStatus.taken } ]
    refillOrders := [] }

/-- State whose schedules are all pending with cleared flags. -/
def pendingOnlyState : MedState :=
  { medicines := sampleMedicines
    schedules := [ samplePendingSchedule,
                   { id := "3", medicineId := "2", scheduledTime := 32400000,
                     taken := false, skipped := false,
                     status := DoseStatus.pending } ]
    refillOrders := [] }

/-- Substring containment, modelling JavaScript String.prototype.includes:
true iff the pattern occurs contiguously in the string. -/
def strContains (s pat : String) : Bool :=
  (List.range (s.data.length + 1)).any fun i => pat.data.isPrefixOf (s.data.drop i)

/-- Lower-casing modelling JavaScript toLowerCase: Char.toLower applied to
every character (the specification of String.toLower, stated charwise so
kernel reduction can evaluate it on literals; it agrees with toLowerCase on
the ASCII letters involved, and Devanagari and Kannada are caseless). -/
def toLowerChars (s : String) : String := String.mk (s.data.map Char.toLower)

/-- VoiceService.identifyIntent (voiceService.ts lines 103-123): lower-cases
the query and tests the ordered substring rules — English block first, then
Hindi, then Kannada — returning the first matching intent and falling back
to 'general_query'. `String.toLower` agrees with JavaScript toLowerCase on
the ASCII letters involved; Devanagari and Kannada have no case. -/
def identifyIntent (query : String) : String :=
  let lowerQuery := toLowerChars query
  if strContains lowerQuery "did i take" || strContains lowerQuery "taken" ||
      strContains lowerQuery "have i taken" then "check_intake"
  else if strContains lowerQuery "next" && strContains lowerQuery "medicine" then
    "next_dose"
  else if strContains lowerQuery "stock" || strContains lowerQuery "running low" ||
      strContains lowerQuery "refill" then "check_stock"
  else if strContains lowerQuery "schedule" || strContains lowerQuery "when" then
    "schedule_query"
  else if strContains lowerQuery "दवा ली" || strContains lowerQuery "खाई" then
    "check_intake"
  else if strContains lowerQuery "अगली दवा" || strContains lowerQuery "कब लेनी" then
    "next_dose"
  else if strContains lowerQuery "स्टॉक" || strContains lowerQuery "खत्म" then
    "check_stock"
  else if strContains lowerQuery "ಔಷಧಿ ತೆಗೆದುಕೊಂಡೆ" || strContains lowerQuery "ಸೇವಿಸಿದೆ" then
    "check_intake"
  else if strContains lowerQuery "ಮುಂದಿನ ಔಷಧಿ" || strContains lowerQuery "ಯಾವಾಗ" then
    "next_dose"
  else if strContains lowerQuery "ಸ್ಟಾಕ್" || strContains lowerQuery "ಮುಗಿಯುತ್ತಿದೆ" then
    "check_stock"
  else "general_query"

/-- Filter of VoiceService.generateResponse (voiceService.ts lines 127-129):
today's schedules, i.e. those whose scheduledTime falls on the same
calendar day as now (toDateString equality, abstracted as day buckets). -/
def todaySchedules (schedules : List DoseSchedule) (now : Int) : List DoseSchedule :=
  schedules.filter fun s => dayOf s.scheduledTime == dayOf now

/-- Name extraction shared by the takenMedicines / pendingMedicines lists
(voiceService.ts lines 131-139): map each schedule to its medicine's name
via find-by-id, then filter(Boolean), which drops both missing medicines
and empty names. -/
def medicineNamesFor (medicines : List Medicine) (ss : List DoseSchedule) :
    List String :=
  (ss.filterMap fun s =>
    (medicines.find? fun m => m.id == s.medicineId).map fun m => m.name).filter
    fun n => !(n == "")

/-- Names of today's schedules with status 'taken'
(voiceService.ts lines 131-134). -/
def takenMedicines (medicines : List Medicine) (ts : List DoseSchedule) :
    List String :=
  medicineNamesFor medicines (ts.filter fun s => s.status == DoseStatus.taken)

/-- Names of today's schedules with status 'pending'
(voiceService.ts lines 136-139). -/
def pendingMedicines (medicines : List Medicine) (ts : List DoseSchedule) :
    List String :=
  medicineNamesFor medicines (ts.filter fun s => s.status == DoseStatus.pending)

/-- Names of medicines at or below their critical threshold
(voiceService.ts lines 141-143). -/
def lowStockMedicines (medicines : List Medicine) : List String :=
  (medicines.filter fun m => m.remainingQuantity ≤ m.criticalThreshold).map
    fun m => m.name

/-- VoiceService.generateIntakeResponse (voiceService.ts lines 184-213):
concatenates a taken sentence and a pending sentence in the requested
language. -/
def generateIntakeResponse (takenMedicines pendingMedicines : List String)
    (language : Lang) : String :=
  match language with
  | Lang.en =>
    (if 0 < takenMedicines.length then
      "Yes, you have taken: " ++ String.intercalate ", " takenMedicines ++ "."
    else "You haven\x27t taken any medicines yet today.") ++
    (if 0 < pendingMedicines.length then
      " You still need to take: " ++ String.intercalate ", " pendingMedicines ++ "."
    else " You have taken all your scheduled medicines for today.")
  | Lang.hi =>
    (if 0 < takenMedicines.length then
      "हाँ, आपने ली हैं: " ++ String.intercalate ", " takenMedicines ++ "।"
    else "आपने आज अभी तक कोई दवा नहीं ली है।") ++
    (if 0 < pendingMedicines.length then
      " आपको अभी भी लेनी हैं: " ++ String.intercalate ", " pendingMedicines ++ "।"
    else " आपने आज की सभी निर्धारित दवाइयाँ ले ली हैं।")
  | Lang.kn =>
    (if 0 < takenMedicines.length then
      "ಹೌದು, ನೀವು ತೆಗೆದುಕೊಂಡಿದ್ದೀರಿ: " ++ String.intercalate ", " takenMedicines ++ "।"
    else "ನೀವು ಇಂದು ಇನ್ನೂ ಯಾವುದೇ ಔಷಧಿ ತೆಗೆದುಕೊಂಡಿಲ್ಲ।") ++
    (if 0 < pendingMedicines.length then
      " ನೀವು ಇನ್ನೂ ತೆಗೆದುಕೊಳ್ಳಬೇಕು: " ++ String.intercalate ", " pendingMedicines ++ "।"
    else " ನೀವು ಇಂದಿನ ಎಲ್ಲಾ ನಿಗದಿತ ಔಷಧಿಗಳನ್ನು ತೆಗೆದುಕೊಂಡಿದ್ದೀರಿ।")

/-- VoiceService.generateResponse (voiceService.ts lines 125-182): derives
today's taken / pending / low-stock name lists from the current state and
selects the canned template of the active UI language for the given intent,
falling back to the general-query template for unknown intents
(the `|| general_query` lookup fallback). -/
def generateResponse (medicines : List Medicine) (schedules : List DoseSchedule)
    (now : Int) (currentLanguage : Lang) (intent : String) : String :=
  let ts := todaySchedules schedules now
  let taken := takenMedicines medicines ts
  let pending := pendingMedicines medicines ts
  let lowStock := lowStockMedicines medicines
  match currentLanguage, intent with
  | Lang.en, "check_intake" => generateIntakeResponse taken pending Lang.en
  | Lang.en, "next_dose" =>
    if 0 < pending.length then
      "Your next medicines to take are: " ++ String.intercalate ", " pending
    else "You have no pending medicines for today."
  | Lang.en, "check_stock" =>
    if 0 < lowStock.length then
      "These medicines are running low: " ++ String.intercalate ", " lowStock ++
        ". I can help you order refills."
    else "All your medicines have adequate stock."
  | Lang.en, "schedule_query" =>
    "You have " ++ toString ts.length ++ " medicines scheduled for today. " ++
      toString taken.length ++ " taken, " ++ toString pending.length ++ " pending."
  | Lang.en, _ =>
    "I can help you with medicine reminders, stock checks, and schedules. Try asking \"Have I taken my medicine?\" or \"What medicines are running low?\""
  | Lang.hi, "check_intake" => generateIntakeResponse taken pending Lang.hi
  | Lang.hi, "next_dose" =>
    if 0 < pending.length then
      "आपकी अगली दवाइयाँ हैं: " ++ String.intercalate ", " pending
    else "आज आपकी कोई दवा बाकी नहीं है।"
  | Lang.hi, "check_stock" =>
    if 0 < lowStock.length then
      "ये दवाइयाँ कम हो रही हैं: " ++ String.intercalate ", " lowStock ++
        "। मैं रिफिल ऑर्डर करने में मदद कर सकता हूँ।"
    else "आपकी सभी दवाइयों का स्टॉक पर्याप्त है।"
  | Lang.hi, "schedule_query" =>
    "आज आपकी " ++ toString ts.length ++ " दवाइयाँ निर्धारित हैं। " ++
      toString taken.length ++ " ली गई, " ++ toString pending.length ++ " बाकी।"
  | Lang.hi, _ =>
    "मैं दवा रिमाइंडर, स्टॉक चेक और शेड्यूल में आपकी मदद कर सकता हूँ।"
  | Lang.kn, "check_intake" => generateIntakeResponse taken pending Lang.kn
  | Lang.kn, "next_dose" =>
    if 0 < pending.length then
      "ನಿಮ್ಮ ಮುಂದಿನ ಔಷಧಿಗಳು: " ++ String.intercalate ", " pending
    else "ಇಂದು ನಿಮಗೆ ಯಾವುದೇ ಔಷಧಿ ಬಾಕಿ ಇಲ್ಲ।"
  | Lang.kn, "check_stock" =>
    if 0 < lowStock.length then
      "ಈ ಔಷಧಿಗಳು ಕಡಿಮೆಯಾಗುತ್ತಿವೆ: " ++ String.intercalate ", " lowStock ++
        "। ನಾನು ರೀಫಿಲ್ ಆರ್ಡರ್ ಮಾಡಲು ಸಹಾಯ ಮಾಡಬಹುದು।"
    else "ನಿಮ್ಮ ಎಲ್ಲಾ ಔಷಧಿಗಳ ಸ್ಟಾಕ್ ಸಾಕಾಗಿದೆ।"
  | Lang.kn, "schedule_query" =>
    "ಇಂದು ನಿಮಗೆ " ++ toString ts.length ++ " ಔಷಧಿಗಳು ನಿಗದಿಪಡಿಸಲಾಗಿದೆ। " ++
      toString taken.length ++ " ತೆಗೆದುಕೊಂಡಿದ್ದೀರಿ, " ++ toString pending.length ++
      " ಬಾಕಿ ಇದೆ।"
  | Lang.kn, _ =>
    "ನಾನು ಔಷಧಿ ರಿಮೈಂಡರ್, ಸ್ಟಾಕ್ ಚೆಕ್ ಮತ್ತು ಶೆಡ್ಯೂಲ್‌ನಲ್ಲಿ ನಿಮಗೆ ಸಹಾಯ ಮಾಡಬಹುದು।"

/-- Schedule list realizing the scenario of spec section 8: two of today's
schedules taken and one pending (the Vitamin D3 dose). -/
def voiceSchedules : List DoseSchedule :=
  [ { id := "1", medicineId := "1", scheduledTime := 28800000,
      taken := true, takenAt := some 29700000, skipped := false,
      status := DoseStatus.taken },
    { id := "2", medicineId := "2", scheduledTime := 32400000,
      taken := true, takenAt := some 32500000, skipped := false,
      status := DoseStatus.taken },
    { id := "3", medicineId := "3", scheduledTime := 36000000,
      taken := false, skipped := false, status := DoseStatus.pending } ]

/-- Modelled from the spec: the `BlynkData` telemetry-snapshot interface of
`src/types` (reconstructed from spec section 6 and the records built in
BlynkService.fetchAllSensorData). -/
structure BlynkData where
  pillCount : Int
  batteryLevel : Int
  temperature : Int
  humidity : Int
  dispenserStatus : Int
  motionSensor : Bool
  lastDispensed : Int
  connected : Bool
deriving DecidableEq, Repr

/-- Outcome of the seven per-channel GET requests of fetchAllSensorData
(first element of the JSON array for pins V0..V6); `none` models a rejected
request, which the code routes into that channel's catch fallback. -/
structure ChannelFetch where
  pillCount : Option Int
  batteryLevel : Option Int
  temperature : Option Int
  humidity : Option Int
  dispenserStatus : Option Int
  motionSensor : Option Int
  lastDispensed : Option Int
deriving DecidableEq, Repr

/-- Random draws consumed by the per-channel catch fallbacks of
fetchAllSensorData (blynkService.ts lines 63-69): Math.floor(Math.random()*k)
is modelled as a value below k, the motion fallback's Math.random() > 0.5 as
a Bool, and the last-dispensed fallback's Math.random()*3600000 as an
offset subtracted from now. -/
structure RandomDraws where
  pill : Fin 50
  battery : Fin 40
  temp : Fin 10
  humid : Fin 20
  motion : Bool
  dispenseAgo : Int
deriving DecidableEq, Repr

/-- JavaScript `v || d` on numbers: d when v is 0, else v. -/
def jsOr (v d : Int) : Int := if v = 0 then d else v

/-- BlynkService.fetchAllSensorData (blynkService.ts lines 51-100), success
path: each of the seven channels resolves either to its fetched value or,
when its request failed, to that channel's catch fallback (randomized for
V0-V3, V5, V6; the constant [0] for V4). Because every channel attaches its
own catch, Promise.all never rejects here, the outer offline catch (lines
84-99) is unreachable from channel failures, and the snapshot is published
with connected = true. -/
def fetchAllSensorData (ch : ChannelFetch) (r : RandomDraws) (now : Int) : BlynkData :=
  let pillCount := ch.pillCount.getD (10 + (r.pill : Int))
  let batteryLevel := ch.batteryLevel.getD (60 + (r.battery : Int))
  let temperature := ch.temperature.getD (20 + (r.temp : Int))
  let humidity := ch.humidity.getD (40 + (r.humid : Int))
  let dispenserStatus := ch.dispenserStatus.getD 0
  let motionSensor := ch.motionSensor.getD (if r.motion then 1 else 0)
  let lastDispensed := ch.lastDispensed.getD (now - r.dispenseAgo)
  { pillCount := jsOr pillCount 0
    batteryLevel := jsOr batteryLevel 0
    temperature := jsOr temperature 0
    humidity := jsOr humidity 0
    dispenserStatus := jsOr dispenserStatus 0
    motionSensor := !(motionSensor == 0)
    lastDispensed := jsOr lastDispensed now
    connected := true }

/-- Modelled from the spec: the `HardwareActivity` interface of `src/types`
(reconstructed from the records built in BlynkService.dispensePill and
BlynkService.sendNotification). -/
structure HardwareActivity where
  id : String
  type : String
  message : String
  timestamp : Int
  success : Bool
deriving DecidableEq, Repr

/-- BlynkService.addActivity (blynkService.ts lines 191-197): unshift the
new activity (newest first) and, when the log then exceeds 50 entries,
truncate to the first 50 (dropping the oldest). -/
def addActivity (activity : HardwareActivity) (activities : List HardwareActivity) :
    List HardwareActivity :=
  let l := activity :: activities
  if 50 < l.length then l.take 50 else l

/-- Sample hardware activity mirroring the record built by
BlynkService.dispensePill. -/
def sampleActivity : HardwareActivity :=
  { id := "1", type := "dispense", message := "Pill dispensed for medicine 1",
    timestamp := 0, success := true }

/-- Channel outcome in which the pill-count request failed and all other
channels succeeded. -/
def failingChannels : ChannelFetch :=
  { pillCount := none, batteryLevel := some 80, temperature := some 25,
    humidity := some 50, dispenserStatus := some 1, motionSensor := some 1,
    lastDispensed := some 123456 }

/-- Concrete random draws for instantiating telemetry theorems. -/
def sampleDraws : RandomDraws :=
  { pill := ⟨7, by decide⟩, battery := ⟨5, by decide⟩, temp := ⟨3, by decide⟩,
    humid := ⟨2, by decide⟩, motion := true, dispenseAgo := 1000 }

/-- C3: for every medicine, `checkStockLevel` classifies
(remainingQuantity, criticalThreshold) as 'critical' iff remaining <= threshold,
as 'low' iff threshold < remaining <= 2*threshold, and as 'adequate' otherwise
(iff 2*threshold < remaining). -/
theorem checkStockLevel_spec (m : Medicine) :
    (checkStockLevel m = StockLevel.critical ↔
      m.remainingQuantity ≤ m.criticalThreshold) ∧
    (checkStockLevel m = StockLevel.low ↔
      (m.criticalThreshold < m.remainingQuantity ∧
        m.remainingQuantity ≤ 2 * m.criticalThreshold)) ∧
    (checkStockLevel m = StockLevel.adequate ↔
      (m.criticalThreshold < m.remainingQuantity ∧
        2 * m.criticalThreshold < m.remainingQuantity)) := by
  unfold checkStockLevel
  split
  · refine ⟨by simp_all, ?_, ?_⟩ <;> constructor <;> intro h <;> simp_all <;> omega
  · split
    · refine ⟨by simp_all, ?_, ?_⟩ <;> constructor <;> intro h <;> simp_all <;> omega
    · refine ⟨by simp_all, ?_, ?_⟩ <;> constructor <;> intro h <;> simp_all <;> omega

/-- C4: for every medicine, `calculateDaysRemaining` returns
floor(remainingQuantity / frequency) when frequency is nonzero (for positive
frequency the result d is characterized by frequency*d <= remaining <
frequency*(d+1)), and returns 0 when frequency is 0 (total function, no
divide-by-zero fault); in particular it returns 4 at (remaining=8, frequency=2)
and 0 at (remaining=8, frequency=0). -/
theorem calculateDaysRemaining_spec (m : Medicine) :
    (m.frequency = 0 → calculateDaysRemaining m = 0) ∧
    (m.frequency ≠ 0 →
      calculateDaysRemaining m = Int.fdiv m.remainingQuantity m.frequency) ∧
    (0 < m.frequency →
      m.frequency * calculateDaysRemaining m ≤ m.remainingQuantity ∧
      m.remainingQuantity < m.frequency * (calculateDaysRemaining m + 1)) ∧
    calculateDaysRemaining { sampleMedicine with remainingQuantity := 8, frequency := 2 } = 4 ∧
    calculateDaysRemaining { sampleMedicine with remainingQuantity := 8, frequency := 0 } = 0 := by
  refine ⟨fun h0 => by simp [calculateDaysRemaining, h0], fun hne => by
    simp [calculateDaysRemaining, hne], fun hpos => ?_, by decide, by decide⟩
  have hne : m.frequency ≠ 0 := ne_of_gt hpos
  have hdef : calculateDaysRemaining m = m.remainingQuantity / m.frequency := by
    rw [show calculateDaysRemaining m = Int.fdiv m.remainingQuantity m.frequency from by
      simp [calculateDaysRemaining, hne]]
    exact Int.fdiv_eq_ediv _ (le_of_lt hpos)
  have h1 := Int.ediv_add_emod m.remainingQuantity m.frequency
  have h2 := Int.emod_nonneg m.remainingQuantity hne
  have h3 := Int.emod_lt_of_pos m.remainingQuantity hpos
  rw [hdef]
  constructor
  · nlinarith
  · nlinarith

/-- Witness instantiating `calculateDaysRemaining_spec` at the sample
medicine (frequency 2, remaining 8), discharging its hypotheses. -/
theorem calculateDaysRemaining_spec_witness :
    ((sampleMedicine.frequency ≠ 0 →
        calculateDaysRemaining sampleMedicine =
          Int.fdiv sampleMedicine.remainingQuantity sampleMedicine.frequency) ∧
      (0 < sampleMedicine.frequency →
        sampleMedicine.frequency * calculateDaysRemaining sampleMedicine ≤
            sampleMedicine.remainingQuantity ∧
          sampleMedicine.remainingQuantity <
            sampleMedicine.frequency * (calculateDaysRemaining sampleMedicine + 1))) ∧
    calculateDaysRemaining sampleMedicine = 4 := by
  have h := calculateDaysRemaining_spec sampleMedicine
  exact ⟨⟨h.2.1, h.2.2.1⟩, (h.2.1 (by decide)).trans (by decide)⟩

/-- Positional elements of equal lists agree. -/
theorem list_get_congr {α : Type} (l1 l2 : List α) (hl : l1 = l2) (i : Nat)
    (h1 : i < l1.length) (h2 : i < l2.length) :
    l1.get ⟨i, h1⟩ = l2.get ⟨i, h2⟩ := by
  subst hl
  rfl

/-- Mapping a function that fixes every element of a list leaves the list
unchanged. -/
theorem map_eq_self_of_fixed {α : Type} (l : List α) (f : α → α)
    (h : ∀ x ∈ l, f x = x) : l.map f = l := by
  induction l with
  | nil => rfl
  | cons a t ih =>
    simp only [List.map_cons]
    rw [h a (by simp), ih (fun x hx => h x (by simp [hx]))]

/-- Length preservation of `updateStock`. -/
theorem updateStock_length (mid : String) (ms : List Medicine) (t : Bool) :
    (updateStock mid ms t).length = ms.length := by
  simp [updateStock]

/-- Pointwise effect of `updateStock` with taken = true: the medicine at
each position is decremented by one (floored at zero) when its id matches,
and returned unchanged otherwise. -/
theorem updateStock_get (mid : String) (ms : List Medicine) (i : Nat)
    (h : i < ms.length) (h' : i < (updateStock mid ms true).length) :
    (updateStock mid ms true).get ⟨i, h'⟩ =
      if (ms.get ⟨i, h⟩).id = mid then
        { ms.get ⟨i, h⟩ with
          remainingQuantity := max 0 ((ms.get ⟨i, h⟩).remainingQuantity - 1) }
      else ms.get ⟨i, h⟩ := by
  simp only [updateStock, List.get_eq_getElem, List.getElem_map, Bool.and_true]
  by_cases hc : ms[i].id = mid
  · simp [hc]
  · simp [hc]

/-- Every element of an `updateStock` result with nonnegative input stays
nonnegative. -/
theorem updateStock_nonneg (mid : String) (ms : List Medicine)
    (h : ∀ m ∈ ms, 0 ≤ m.remainingQuantity) :
    ∀ m' ∈ updateStock mid ms true, 0 ≤ m'.remainingQuantity := by
  intro m' hm'
  unfold updateStock at hm'
  obtain ⟨m, hm, rfl⟩ := List.mem_map.mp hm'
  split
  · exact le_max_left _ _
  · exact h m hm

/-- Characterization of the medicine list after one dose-lifecycle action:
either unchanged, or equal to an `updateStock` on the target medicine id. -/
theorem applyAction_medicines (act : DoseAction) (st : MedState) :
    (applyAction act st).medicines = st.medicines ∨
    ∃ mid, targetMedicineId act st = some mid ∧
      (applyAction act st).medicines = updateStock mid st.medicines true := by
  cases act with
  | markTaken now refill id =>
    simp only [applyAction, markDoseTaken, targetMedicineId]
    cases hf : st.schedules.find? (fun s => s.id == id) with
    | none => exact Or.inl rfl
    | some sc => exact Or.inr ⟨sc.medicineId, rfl, rfl⟩
  | markLate now id =>
    simp only [applyAction, markTakenLate, targetMedicineId]
    cases hf : st.schedules.find? (fun s => s.id == id) with
    | none => exact Or.inl rfl
    | some sc => exact Or.inr ⟨sc.medicineId, rfl, rfl⟩
  | skip id reason => exact Or.inl rfl
  | snooze now id => exact Or.inl rfl

/-- One dose-lifecycle action preserves nonnegativity of every stock. -/
theorem applyAction_nonneg (act : DoseAction) (st : MedState)
    (h : ∀ m ∈ st.medicines, 0 ≤ m.remainingQuantity) :
    ∀ m' ∈ (applyAction act st).medicines, 0 ≤ m'.remainingQuantity := by
  rcases applyAction_medicines act st with heq | ⟨mid, _, heq⟩ <;> rw [heq]
  · exact h
  · exact updateStock_nonneg mid st.medicines h

/-- One dose-lifecycle action preserves the length of the medicine list. -/
theorem applyAction_medicines_length (act : DoseAction) (st : MedState) :
    (applyAction act st).medicines.length = st.medicines.length := by
  rcases applyAction_medicines act st with heq | ⟨mid, _, heq⟩ <;> rw [heq]
  exact updateStock_length mid st.medicines true

/-- C2: for every schedule id found in the schedule list with status
'pending', `markDoseTaken` sets that schedule's status to 'taken', records
the completion timestamp in takenAt (and the taken flag), and the medicine
list keeps its length with each medicine's remainingQuantity decreased by
exactly 1 floored at 0 when its id matches the schedule's medicineId, and
unchanged otherwise. -/
theorem markDoseTaken_pending_spec (st : MedState) (now : Int)
    (refill : Option RefillOrder) (scheduleId : String) (sc : DoseSchedule)
    (hfind : st.schedules.find? (fun s => s.id == scheduleId) = some sc)
    (hpending : sc.status = DoseStatus.pending) :
    (∀ s' ∈ (markDoseTaken now refill scheduleId st).schedules, s'.id = scheduleId →
        s'.status = DoseStatus.taken ∧ s'.takenAt = some now ∧ s'.taken = true) ∧
    (markDoseTaken now refill scheduleId st).medicines.length = st.medicines.length ∧
    (∀ i (h : i < st.medicines.length)
        (h' : i < (markDoseTaken now refill scheduleId st).medicines.length),
      ((markDoseTaken now refill scheduleId st).medicines.get ⟨i, h'⟩).remainingQuantity =
        if (st.medicines.get ⟨i, h⟩).id = sc.medicineId then
          max 0 ((st.medicines.get ⟨i, h⟩).remainingQuantity - 1)
        else (st.medicines.get ⟨i, h⟩).remainingQuantity) := by
  unfold markDoseTaken
  rw [hfind]
  refine ⟨?_, ?_, ?_⟩
  · intro s' hs' hid
    obtain ⟨s, hs, rfl⟩ := List.mem_map.mp hs'
    by_cases hc : s.id = scheduleId
    · simp [hc]
    · simp only [beq_iff_eq, if_neg hc] at hid ⊢
      exact absurd hid hc
  · exact updateStock_length _ _ _
  · intro i h h'
    rw [updateStock_get sc.medicineId st.medicines i h h']
    split <;> simp

/-- Witness for C2: marking the pending evening Metformin dose (schedule id
'2') of the sample state taken at time 1000. -/
theorem markDoseTaken_pending_spec_witness :
    sampleState.schedules.find? (fun s => s.id == "2") = some samplePendingSchedule ∧
    samplePendingSchedule.status = DoseStatus.pending ∧
    (∀ s' ∈ (markDoseTaken 1000 none "2" sampleState).schedules, s'.id = "2" →
        s'.status = DoseStatus.taken ∧ s'.takenAt = some 1000 ∧ s'.taken = true) ∧
    (markDoseTaken 1000 none "2" sampleState).medicines.length =
      sampleState.medicines.length := by
  have h := markDoseTaken_pending_spec sampleState 1000 none "2"
    samplePendingSchedule (by decide) rfl
  exact ⟨by decide, rfl, h.1, h.2.1⟩

/-- C6: `snoozeDose` leaves medicines and refill orders unchanged and, at
every position of the schedule list, sets status 'snoozed' and
snoozeUntil = now + 30 minutes on the schedule when its id matches, and
returns it unchanged otherwise. -/
theorem snoozeDose_spec (st : MedState) (now : Int) (scheduleId : String) :
    (snoozeDose now scheduleId st).medicines = st.medicines ∧
    (snoozeDose now scheduleId st).refillOrders = st.refillOrders ∧
    (snoozeDose now scheduleId st).schedules.length = st.schedules.length ∧
    ∀ i (h : i < st.schedules.length)
        (h' : i < (snoozeDose now scheduleId st).schedules.length),
      (snoozeDose now scheduleId st).schedules.get ⟨i, h'⟩ =
        if (st.schedules.get ⟨i, h⟩).id = scheduleId then
          { st.schedules.get ⟨i, h⟩ with
            status := DoseStatus.snoozed
            snoozeUntil := some (now + 30 * 60000) }
        else st.schedules.get ⟨i, h⟩ := by
  refine ⟨rfl, rfl, by simp [snoozeDose], ?_⟩
  intro i h h'
  simp only [snoozeDose, List.get_eq_getElem, List.getElem_map]
  by_cases hc : st.schedules[i].id = scheduleId
  · simp [hc]
  · simp [hc]

/-- Witness for C6: snoozing schedule '2' of the sample state at time 500
sets snoozeUntil to 500 + 30 minutes and keeps the medicines. -/
theorem snoozeDose_spec_witness :
    (snoozeDose 500 "2" sampleState).medicines = sampleState.medicines ∧
    (snoozeDose 500 "2" sampleState).schedules.get ⟨1, by decide⟩ =
      { samplePendingSchedule with
        status := DoseStatus.snoozed
        snoozeUntil := some (500 + 30 * 60000) } := by
  have h := snoozeDose_spec sampleState 500 "2"
  refine ⟨h.1, ?_⟩
  rw [h.2.2.2 1 (by decide) (by decide)]
  decide

/-- C9: when no schedule has the requested id, all four dose-lifecycle
operations return the state unchanged (same schedules, medicines and refill
orders), signalling no fault. -/
theorem missing_id_noop (st : MedState) (now : Int) (refill : Option RefillOrder)
    (scheduleId : String) (reason : Option String)
    (habsent : ∀ s ∈ st.schedules, ¬ s.id = scheduleId) :
    markDoseTaken now refill scheduleId st = st ∧
    skipDose scheduleId reason st = st ∧
    snoozeDose now scheduleId st = st ∧
    markTakenLate now scheduleId st = st := by
  have hfind : st.schedules.find? (fun s => s.id == scheduleId) = none := by
    rw [List.find?_eq_none]
    intro s hs
    simpa using habsent s hs
  have hfix : ∀ (f : DoseSchedule → DoseSchedule) (s : DoseSchedule),
      s ∈ st.schedules →
      (if s.id == scheduleId then f s else s) = s := by
    intro f s hs
    simp [habsent s hs]
  refine ⟨?_, ?_, ?_, ?_⟩
  · unfold markDoseTaken
    rw [hfind]
  · unfold skipDose
    rw [map_eq_self_of_fixed _ _ (hfix _)]
  · show { st with schedules := st.schedules.map fun s =>
        if s.id == scheduleId then
          { s with status := DoseStatus.snoozed
                   snoozeUntil := some (now + 30 * 60000) }
        else s } = st
    rw [map_eq_self_of_fixed _ _ (hfix _)]
  · show (match st.schedules.find? (fun s => s.id == scheduleId) with
      | none => { st with schedules := st.schedules.map fun s =>
          if s.id == scheduleId then
            { s with taken := true, takenAt := some now, status := DoseStatus.taken_late }
          else s }
      | some schedule =>
        { st with
          schedules := st.schedules.map fun s =>
            if s.id == scheduleId then
              { s with taken := true, takenAt := some now, status := DoseStatus.taken_late }
            else s
          medicines := updateStock schedule.medicineId st.medicines true }) = st
    rw [hfind, map_eq_self_of_fixed _ _ (hfix _)]

/-- Witness for C9: schedule id '99' is absent from the sample state and
every operation leaves the state untouched. -/
theorem missing_id_noop_witness :
    (∀ s ∈ sampleState.schedules, ¬ s.id = "99") ∧
    markDoseTaken 0 none "99" sampleState = sampleState ∧
    skipDose "99" none sampleState = sampleState ∧
    snoozeDose 0 "99" sampleState = sampleState ∧
    markTakenLate 0 "99" sampleState = sampleState := by
  have h := missing_id_noop sampleState 0 none "99" none (by decide)
  exact ⟨by decide, h.1, h.2.1, h.2.2.1, h.2.2.2⟩

/-- Counterexample for C5: the single schedule of `takenOnlyState` has
consistent flags (taken with status 'taken'), yet snoozing it — a
dose-lifecycle operation applied to a schedule in a non-pending starting
status — yields taken = true with status 'snoozed', breaking the claimed
consistency of the boolean mirrors with the status enum. -/
theorem snooze_taken_breaks_flag_consistency :
    (∀ s ∈ takenOnlyState.schedules, flagsConsistent s) ∧
    ¬ (∀ s' ∈ (snoozeDose 0 "1" takenOnlyState).schedules, flagsConsistent s') := by
  constructor
  · decide
  · decide

/-- C5 (amended): every dose-lifecycle operation applied to a state whose
schedules are all 'pending' with cleared taken/skipped flags produces
schedules whose boolean flags are consistent with the status enum; from
other starting statuses consistency can be violated. -/
theorem ops_from_pending_keep_flags_consistent (st : MedState) (act : DoseAction)
    (hclean : ∀ s ∈ st.schedules,
      s.status = DoseStatus.pending ∧ s.taken = false ∧ s.skipped = false) :
    ∀ s' ∈ (applyAction act st).schedules, flagsConsistent s' := by
  have base : ∀ s ∈ st.schedules, flagsConsistent s := by
    intro s hs
    obtain ⟨h1, h2, h3⟩ := hclean s hs
    simp [flagsConsistent, h1, h2, h3]
  have mapped : ∀ (f : DoseSchedule → DoseSchedule),
      (∀ s ∈ st.schedules, flagsConsistent (f s)) →
      ∀ (p : DoseSchedule → Bool),
      ∀ s' ∈ st.schedules.map (fun s => if p s then f s else s), flagsConsistent s' := by
    intro f hf p s' hs'
    obtain ⟨s, hs, rfl⟩ := List.mem_map.mp hs'
    by_cases hc : p s
    · simpa [hc] using hf s hs
    · simpa [hc] using base s hs
  cases act with
  | markTaken now refill id =>
    simp only [applyAction, markDoseTaken]
    cases hf : st.schedules.find? (fun s => s.id == id) with
    | none => exact base
    | some sc =>
      refine mapped _ ?_ _
      intro s hs
      obtain ⟨h1, h2, h3⟩ := hclean s hs
      simp [flagsConsistent, h3]
  | markLate now id =>
    simp only [applyAction, markTakenLate]
    cases hf : st.schedules.find? (fun s => s.id == id) with
    | none =>
      refine mapped _ ?_ _
      intro s hs
      obtain ⟨h1, h2, h3⟩ := hclean s hs
      simp [flagsConsistent, h3]
    | some sc =>
      refine mapped _ ?_ _
      intro s hs
      obtain ⟨h1, h2, h3⟩ := hclean s hs
      simp [flagsConsistent, h3]
  | skip id reason =>
    refine mapped _ ?_ _
    intro s hs
    obtain ⟨h1, h2, h3⟩ := hclean s hs
    simp [flagsConsistent, h2]
  | snooze now id =>
    refine mapped _ ?_ _
    intro s hs
    obtain ⟨h1, h2, h3⟩ := hclean s hs
    simp [flagsConsistent, h1, h2, h3]

/-- Witness for the amended C5: snoozing a dose of the all-pending sample
state keeps every schedule's flags consistent. -/
theorem ops_from_pending_keep_flags_consistent_witness :
    (∀ s ∈ pendingOnlyState.schedules,
      s.status = DoseStatus.pending ∧ s.taken = false ∧ s.skipped = false) ∧
    (∀ s' ∈ (applyAction (DoseAction.snooze 0 "2") pendingOnlyState).schedules,
      flagsConsistent s') :=
  ⟨by decide,
    ops_from_pending_keep_flags_consistent pendingOnlyState
      (DoseAction.snooze 0 "2") (by decide)⟩

/-- C10: starting from a medicine list whose stocks are all nonnegative,
any sequence of dose-lifecycle actions keeps every remainingQuantity
nonnegative; moreover a single action preserves the medicine-list length
and changes each medicine either not at all or — only when its id is the
target medicineId of a completed dose — to the same record with
remainingQuantity decremented by one and floored at zero. -/
theorem stock_nonneg_invariant (st : MedState) (acts : List DoseAction)
    (act : DoseAction)
    (hnonneg : ∀ m ∈ st.medicines, 0 ≤ m.remainingQuantity) :
    (∀ m' ∈ (acts.foldl (fun s a => applyAction a s) st).medicines,
        0 ≤ m'.remainingQuantity) ∧
    (applyAction act st).medicines.length = st.medicines.length ∧
    (∀ i (h : i < st.medicines.length)
        (h' : i < (applyAction act st).medicines.length),
      (applyAction act st).medicines.get ⟨i, h'⟩ = st.medicines.get ⟨i, h⟩ ∨
      (targetMedicineId act st = some (st.medicines.get ⟨i, h⟩).id ∧
        (applyAction act st).medicines.get ⟨i, h'⟩ =
          { st.medicines.get ⟨i, h⟩ with
            remainingQuantity :=
              max 0 ((st.medicines.get ⟨i, h⟩).remainingQuantity - 1) })) := by
  refine ⟨?_, applyAction_medicines_length act st, ?_⟩
  · induction acts generalizing st with
    | nil => simpa using hnonneg
    | cons a t ih => exact ih _ (applyAction_nonneg a st hnonneg)
  · intro i h h'
    rcases applyAction_medicines act st with heq | ⟨mid, hmid, heq⟩
    · left
      exact list_get_congr _ _ heq i h' h
    · have h2 : i < (updateStock mid st.medicines true).length := by
        rwa [updateStock_length]
      rw [list_get_congr _ _ heq i h' h2, updateStock_get mid st.medicines i h h2]
      by_cases hc : (st.medicines.get ⟨i, h⟩).id = mid
      · right
        refine ⟨by rw [hmid, hc], by rw [if_pos hc]⟩
      · left
        rw [if_neg hc]

/-- Witness for C10: the sample state has nonnegative stocks and keeps them
nonnegative after taking dose '2' and skipping dose '3'. -/
theorem stock_nonneg_invariant_witness :
    (∀ m ∈ sampleState.medicines, 0 ≤ m.remainingQuantity) ∧
    (∀ m' ∈ ([DoseAction.markTaken 1000 none "2", DoseAction.skip "3" none].foldl
        (fun s a => applyAction a s) sampleState).medicines,
      0 ≤ m'.remainingQuantity) ∧
    (applyAction (DoseAction.markTaken 1000 none "2") sampleState).medicines.length =
      sampleState.medicines.length := by
  have h := stock_nonneg_invariant sampleState
    [DoseAction.markTaken 1000 none "2", DoseAction.skip "3" none]
    (DoseAction.markTaken 1000 none "2") (by decide)
  exact ⟨by decide, h.1, h.2.1⟩

/-- Intercalating a separator into a one-element list yields its element. -/
theorem intercalate_singleton (s a : String) : String.intercalate s [a] = a := rfl

set_option maxRecDepth 8192 in
/-- Counterexample for C1: with today's schedules containing exactly two
taken doses and one pending dose (Vitamin D3 1000IU), the English query
"What medicines do I still need to take?" is classified as 'general_query'
— not 'next_dose' — because it contains neither 'next' nor any
check-intake keyword, and the generated response is the canned general
help sentence, which does not mention the pending medicine's name. -/
theorem stillNeedQuery_not_next_dose :
    identifyIntent "What medicines do I still need to take?" = "general_query" ∧
    identifyIntent "What medicines do I still need to take?" ≠ "next_dose" ∧
    ((todaySchedules voiceSchedules 1000).filter
        fun s => s.status == DoseStatus.taken).length = 2 ∧
    pendingMedicines sampleMedicines (todaySchedules voiceSchedules 1000) =
      ["Vitamin D3 1000IU"] ∧
    generateResponse sampleMedicines voiceSchedules 1000 Lang.en
        (identifyIntent "What medicines do I still need to take?") =
      "I can help you with medicine reminders, stock checks, and schedules. Try asking \"Have I taken my medicine?\" or \"What medicines are running low?\"" ∧
    strContains
        (generateResponse sampleMedicines voiceSchedules 1000 Lang.en
          (identifyIntent "What medicines do I still need to take?"))
        "Vitamin D3 1000IU" = false := by
  refine ⟨by decide, by decide, by decide, by decide, by decide, by decide⟩

/-- C1 (amended): in the two-taken / one-pending scenario, an English query
containing both 'next' and 'medicine' (and no earlier-rule keyword), such
as "What is my next medicine?", resolves to intent 'next_dose' and the
generated English response lists exactly the one pending medicine's name;
the original query "What medicines do I still need to take?" instead
resolves to 'general_query'. -/
theorem next_medicine_query_lists_pending (medicines : List Medicine)
    (schedules : List DoseSchedule) (now : Int) (n : String)
    (hpend : pendingMedicines medicines (todaySchedules schedules now) = [n])
    (htaken : ((todaySchedules schedules now).filter
        fun s => s.status == DoseStatus.taken).length = 2) :
    identifyIntent "What is my next medicine?" = "next_dose" ∧
    generateResponse medicines schedules now Lang.en
        (identifyIntent "What is my next medicine?") =
      "Your next medicines to take are: " ++ n := by
  have hint : identifyIntent "What is my next medicine?" = "next_dose" := by decide
  refine ⟨hint, ?_⟩
  rw [hint]
  simp only [generateResponse, hpend]
  rw [intercalate_singleton]
  simp

/-- Witness for the amended C1: the two-taken / one-pending sample scenario
with pending medicine Vitamin D3 1000IU. -/
theorem next_medicine_query_lists_pending_witness :
    pendingMedicines sampleMedicines (todaySchedules voiceSchedules 1000) =
      ["Vitamin D3 1000IU"] ∧
    ((todaySchedules voiceSchedules 1000).filter
        fun s => s.status == DoseStatus.taken).length = 2 ∧
    generateResponse sampleMedicines voiceSchedules 1000 Lang.en
        (identifyIntent "What is my next medicine?") =
      "Your next medicines to take are: " ++ "Vitamin D3 1000IU" := by
  have h := next_medicine_query_lists_pending sampleMedicines voiceSchedules 1000
    "Vitamin D3 1000IU" (by decide) (by decide)
  exact ⟨by decide, by decide, h.2⟩

/-- Counterexample for C7: a telemetry fetch in which the pill-count channel
fails produces a snapshot with a substituted value (10 + draw = 17) but with
the connectivity flag still true, not false as the claim states: the
per-channel catches prevent Promise.all from rejecting, so the offline
branch that would set connected = false is never reached by channel
failures. -/
theorem channel_failure_keeps_connected_true :
    failingChannels.pillCount = none ∧
    (fetchAllSensorData failingChannels sampleDraws 500000).connected = true ∧
    ¬ (fetchAllSensorData failingChannels sampleDraws 500000).connected = false ∧
    (fetchAllSensorData failingChannels sampleDraws 500000).pillCount = 17 := by
  refine ⟨rfl, rfl, by decide, by decide⟩

/-- C7 (amended): whenever channels fail, the produced snapshot substitutes
for each failed channel its fallback value — randomized within a plausible
range for pill count [10,60), battery [60,100), temperature [20,30) and
humidity [40,60), and the constant 0 for dispenser status — and the
snapshot's connectivity flag is true (connected = false arises only from
the aggregate-failure path, which individual channel failures cannot
trigger). -/
theorem fetchAllSensorData_fallback_spec (ch : ChannelFetch) (r : RandomDraws)
    (now : Int) :
    (fetchAllSensorData ch r now).connected = true ∧
    (ch.pillCount = none →
      10 ≤ (fetchAllSensorData ch r now).pillCount ∧
      (fetchAllSensorData ch r now).pillCount < 60) ∧
    (ch.batteryLevel = none →
      60 ≤ (fetchAllSensorData ch r now).batteryLevel ∧
      (fetchAllSensorData ch r now).batteryLevel < 100) ∧
    (ch.temperature = none →
      20 ≤ (fetchAllSensorData ch r now).temperature ∧
      (fetchAllSensorData ch r now).temperature < 30) ∧
    (ch.humidity = none →
      40 ≤ (fetchAllSensorData ch r now).humidity ∧
      (fetchAllSensorData ch r now).humidity < 60) ∧
    (ch.dispenserStatus = none →
      (fetchAllSensorData ch r now).dispenserStatus = 0) := by
  have hpill : ((r.pill : Nat) : Int) < 50 := by exact_mod_cast r.pill.isLt
  have hpill0 : (0 : Int) ≤ ((r.pill : Nat) : Int) := Int.ofNat_nonneg _
  have hbat : ((r.battery : Nat) : Int) < 40 := by exact_mod_cast r.battery.isLt
  have hbat0 : (0 : Int) ≤ ((r.battery : Nat) : Int) := Int.ofNat_nonneg _
  have htemp : ((r.temp : Nat) : Int) < 10 := by exact_mod_cast r.temp.isLt
  have htemp0 : (0 : Int) ≤ ((r.temp : Nat) : Int) := Int.ofNat_nonneg _
  have hhum : ((r.humid : Nat) : Int) < 20 := by exact_mod_cast r.humid.isLt
  have hhum0 : (0 : Int) ≤ ((r.humid : Nat) : Int) := Int.ofNat_nonneg _
  refine ⟨rfl, ?_, ?_, ?_, ?_, ?_⟩
  · intro h
    simp only [fetchAllSensorData, h, Option.getD_none, jsOr]
    split
    · omega
    · constructor <;> omega
  · intro h
    simp only [fetchAllSensorData, h, Option.getD_none, jsOr]
    split
    · omega
    · constructor <;> omega
  · intro h
    simp only [fetchAllSensorData, h, Option.getD_none, jsOr]
    split
    · omega
    · constructor <;> omega
  · intro h
    simp only [fetchAllSensorData, h, Option.getD_none, jsOr]
    split
    · omega
    · constructor <;> omega
  · intro h
    simp [fetchAllSensorData, h, jsOr]

/-- Witness for the amended C7: the concrete fetch with a failed pill-count
channel yields connected = true and an in-range substituted pill count. -/
theorem fetchAllSensorData_fallback_spec_witness :
    failingChannels.pillCount = none ∧
    (fetchAllSensorData failingChannels sampleDraws 500000).connected = true ∧
    10 ≤ (fetchAllSensorData failingChannels sampleDraws 500000).pillCount ∧
    (fetchAllSensorData failingChannels sampleDraws 500000).pillCount < 60 := by
  have h := fetchAllSensorData_fallback_spec failingChannels sampleDraws 500000
  exact ⟨rfl, h.1, (h.2.1 rfl).1, (h.2.1 rfl).2⟩

/-- One insertion into a log of at most 50 entries leaves at most 50
entries. -/
theorem addActivity_length_le (a : HardwareActivity) (log : List HardwareActivity)
    (h : log.length ≤ 50) : (addActivity a log).length ≤ 50 := by
  show (if 50 < (a :: log).length then List.take 50 (a :: log) else a :: log).length ≤ 50
  split
  · simp
  · next hlt =>
      simp only [List.length_cons] at hlt ⊢
      omega

/-- Any sequence of insertions starting from the empty log stays within 50
entries. -/
theorem foldl_addActivity_length_le (as : List HardwareActivity)
    (l : List HardwareActivity) (h : l.length ≤ 50) :
    (as.foldl (fun acc x => addActivity x acc) l).length ≤ 50 := by
  induction as generalizing l with
  | nil => simpa using h
  | cons a t ih => exact ih _ (addActivity_length_le a l h)

/-- C8: starting within the 50-entry cap, an insertion keeps the activity
log at no more than 50 entries; when the log already holds exactly 50
entries the insertion evicts the oldest (last) entry, yielding the new
entry followed by all but the last old entry; the newest entry is always at
the head (newest-first order); and any sequence of insertions from the
empty initial log stays within 50 entries. -/
theorem addActivity_spec (a : HardwareActivity) (log : List HardwareActivity)
    (as : List HardwareActivity) (hlen : log.length ≤ 50) :
    (addActivity a log).length ≤ 50 ∧
    (log.length = 50 → addActivity a log = a :: log.dropLast) ∧
    (addActivity a log).head? = some a ∧
    (as.foldl (fun acc x => addActivity x acc) []).length ≤ 50 := by
  refine ⟨addActivity_length_le a log hlen, ?_, ?_, foldl_addActivity_length_le as [] (by simp)⟩
  · intro h50
    show (if 50 < (a :: log).length then List.take 50 (a :: log) else a :: log) =
      a :: log.dropLast
    rw [if_pos (by simp [h50])]
    rw [List.dropLast_eq_take, h50]
    simp
  · show (if 50 < (a :: log).length then List.take 50 (a :: log) else a :: log).head? =
      some a
    split
    · rw [List.take_succ_cons]
      rfl
    · rfl

/-- Witness for C8: inserting into the empty log and into a full 50-entry
log, with the eviction equation at the full log. -/
theorem addActivity_spec_witness :
    ([] : List HardwareActivity).length ≤ 50 ∧
    (addActivity sampleActivity []).length ≤ 50 ∧
    (addActivity sampleActivity []).head? = some sampleActivity ∧
    (List.replicate 50 sampleActivity).length ≤ 50 ∧
    addActivity sampleActivity (List.replicate 50 sampleActivity) =
      sampleActivity :: (List.replicate 50 sampleActivity).dropLast := by
  have h1 := addActivity_spec sampleActivity [] [] (by simp)
  have h2 := addActivity_spec sampleActivity (List.replicate 50 sampleActivity) []
    (by simp)
  exact ⟨by simp, h1.1, h1.2.2.1, by simp, h2.2.1 (by simp)⟩
